import Mathlib

/-!
Shallow embedding of the templjs decision-scoring engine.

The repository contains three near-duplicate Python scoring scripts:
`score_alternatives.py` (the comparative variant, zero-fill missing-score
policy), `score_options.py` (the scaled variant) and
`score_with_guardrails.py` (the guardrailed variant, exclude-and-renormalize
policy with feasibility, evidence and discovery gates).

Python floats are embedded as rationals, Python dicts as association lists,
raised ValueErrors as `Except String`, and the wall clock consulted by the
guardrailed script is threaded in as an explicit `now : String` parameter.
-/

set_option maxRecDepth 10000

namespace Templ

/-- Round a rational to the nearest integer with ties going to the even
integer, mirroring the Python builtin `round`. -/
def roundHalfEven (q : ℚ) : ℤ :=
  let f : ℤ := ⌊q⌋
  let frac : ℚ := q - f
  if frac < 1/2 then f
  else if 1/2 < frac then f + 1
  else if f % 2 = 0 then f else f + 1

/-- Embedding of Python `round(x, 2)`. -/
def round2 (q : ℚ) : ℚ := (roundHalfEven (q * 100) : ℚ) / 100

/-- Embedding of Python `round(x, 3)`. -/
def round3 (q : ℚ) : ℚ := (roundHalfEven (q * 1000) : ℚ) / 1000

/-- Embedding of the Python format spec `.2f` used inside reason strings. -/
def fmt2 (q : ℚ) : String :=
  let r : ℤ := roundHalfEven (q * 100)
  let sign := if r < 0 then "-" else ""
  let a := r.natAbs
  let ip := a / 100
  let fp := a % 100
  sign ++ toString ip ++ "." ++ (if fp < 10 then "0" else "") ++ toString fp

/-- Python `dict.get`: first binding of the key in an association list. -/
def lookupAssoc (l : List (String × α)) (k : String) : Option α :=
  (l.find? (fun p => p.1 == k)).map (·.2)

/-- Embedding of Python `str.strip`: drop whitespace from both ends. -/
def pyStrip (s : String) : String :=
  ⟨((s.data.dropWhile Char.isWhitespace).reverse.dropWhile Char.isWhitespace).reverse⟩

/-- Embedding of Python `str.lower`. -/
def pyLower (s : String) : String := ⟨s.data.map Char.toLower⟩

/-! ### Shared input shapes -/

/-- A raw criterion object from the input document. Absent `id` is the
empty string; the remaining fields are `Option` when the scripts apply a
default on absence. -/
structure RawCriterion where
  id : String
  name : Option String
  weight : Option ℚ
  metric : Option String
  data_source : Option String
  scoring_rule : Option String
deriving Repr, DecidableEq, Inhabited

/-- A raw evidence entry (guardrailed variant). -/
structure RawEvidence where
  source_url : String
  source_date : String
  evidence_strength : String
deriving Repr, DecidableEq, Inhabited

/-- A raw alternative object. Per-platform score maps may be absent or
null (`Option` around the inner association list). The comparative variant
reads only `id`, `name`, `scores` and `notes`; the guardrailed variant reads
every field. -/
structure RawAlt where
  id : String
  name : Option String
  type : String
  effort : String
  risk : String
  justification : String
  feasible : Option Bool
  scores : List (String × Option (List (String × ℚ)))
  evidence : Option (List RawEvidence)
  notes : String
deriving Repr, DecidableEq, Inhabited

/-- Normalized two-term aggregation blend. -/
structure Blend where
  major_platform_average : ℚ
  current_platform : ℚ
deriving Repr, DecidableEq, Inhabited

/-- Optional user override of the blend. -/
structure BlendOverride where
  major_platform_average : Option ℚ
  current_platform : Option ℚ
deriving Repr, DecidableEq, Inhabited

/-- Embedding of `_normalize_blend`, identical in all three scripts:
merge the override into the default blend, reject negative components or a
non-positive sum, rescale to sum 1. -/
def normalizeBlend (weights : Option BlendOverride) : Except String Blend :=
  let major := (weights.bind (·.major_platform_average)).getD (6/10)
  let current := (weights.bind (·.current_platform)).getD (4/10)
  if major < 0 ∨ current < 0 then .error "Blend weights must be non-negative"
  else if major + current ≤ 0 then .error "Blend weights must sum to a positive value"
  else
    let total := major + current
    .ok { major_platform_average := major / total, current_platform := current / total }

/-- The per-platform score map for one alternative and one platform:
`scores.get(platform, {})`, with a null map treated as `{}`. -/
def platformScores (scores : List (String × Option (List (String × ℚ))))
    (platform : String) : List (String × ℚ) :=
  match lookupAssoc scores platform with
  | none => []
  | some none => []
  | some (some m) => m

/-! ### Comparative variant (`score_alternatives.py`) -/

/-- Normalized criterion of the comparative variant. -/
structure CritC where
  id : String
  name : String
  weight : ℚ
deriving Repr, DecidableEq, Inhabited

/-- Per-entry validation loop of `_normalize_weights`: trims and checks ids,
rejects duplicates and negative weights, defaults the name to the id. -/
def validateCritsC : List RawCriterion → List String → ℕ → Except String (List CritC)
  | [], _, _ => .ok []
  | c :: rest, seen, index =>
    let cid := pyStrip c.id
    if cid = "" then .error s!"criteria[{index}].id is required"
    else if seen.contains cid then .error s!"Duplicate criterion id {cid}"
    else
      let nm := pyStrip (c.name.getD cid)
      let name := if nm = "" then cid else nm
      let weight := c.weight.getD 0
      if weight < 0 then .error s!"criteria[{index}].weight must be non-negative"
      else (validateCritsC rest (cid :: seen) (index + 1)).map
        (fun tail => { id := cid, name := name, weight := weight } :: tail)

/-- Embedding of `score_alternatives._normalize_weights`: validate entries,
reject an empty list or a non-positive total, divide each weight by the
total. -/
def normalizeWeightsC (criteria : List RawCriterion) : Except String (List CritC) :=
  if criteria.isEmpty then .error "At least one criterion is required"
  else match validateCritsC criteria [] 0 with
    | .error e => .error e
    | .ok l =>
      let total := (l.map (·.weight)).sum
      if total ≤ 0 then .error "Sum of criterion weights must be greater than zero"
      else .ok (l.map (fun c => { c with weight := c.weight / total }))

/-- Recommendation rules of the comparative variant. -/
structure RulesC where
  select_min : ℚ
  select_margin : ℚ
  compose_min : ℚ
  compose_margin : ℚ
  improve_min : ℚ
  extend_gap : ℚ
deriving Repr, DecidableEq, Inhabited

/-- Optional user override of the rules (comparative variant). -/
structure RulesOverrideC where
  select_min : Option ℚ
  select_margin : Option ℚ
  compose_min : Option ℚ
  compose_margin : Option ℚ
  improve_min : Option ℚ
  extend_gap : Option ℚ
deriving Repr, DecidableEq, Inhabited

/-- Embedding of `score_alternatives._normalize_rules`: merge the override
key-by-key over the defaults. -/
def normalizeRulesC (rules : Option RulesOverrideC) : RulesC :=
  { select_min := (rules.bind (·.select_min)).getD 80
    select_margin := (rules.bind (·.select_margin)).getD 7
    compose_min := (rules.bind (·.compose_min)).getD 70
    compose_margin := (rules.bind (·.compose_margin)).getD 7
    improve_min := (rules.bind (·.improve_min)).getD 55
    extend_gap := (rules.bind (·.extend_gap)).getD 10 }

/-- Normalized alternative of the comparative variant. -/
structure AltC where
  id : String
  name : String
  scores : List (String × Option (List (String × ℚ)))
  notes : String
deriving Repr, DecidableEq, Inhabited

/-- The id, duplicate and name validation applied to each alternative inside
`score_alternatives._evaluate`. -/
def validateAltsC : List RawAlt → List String → ℕ → Except String (List AltC)
  | [], _, _ => .ok []
  | alt :: rest, seen, index =>
    let aid := pyStrip alt.id
    if aid = "" then .error s!"alternatives[{index}].id is required"
    else if seen.contains aid then .error s!"Duplicate alternative id {aid}"
    else
      let nm := pyStrip (alt.name.getD aid)
      let name := if nm = "" then aid else nm
      (validateAltsC rest (aid :: seen) (index + 1)).map
        (fun tail => { id := aid, name := name, scores := alt.scores, notes := alt.notes } :: tail)

/-- Embedding of `_clamp_score`: clamp a raw value into `[0, 100]`. -/
def clampScore (v : ℚ) : ℚ := if v < 0 then 0 else if v > 100 then 100 else v

/-- Embedding of `score_alternatives._platform_score` (zero-fill policy):
a missing criterion contributes `weight * 0` and bumps the missing count. -/
def platformScoreC (alt : AltC) (platform : String) (criteria : List CritC) : ℚ × ℕ :=
  let ps := platformScores alt.scores platform
  criteria.foldl
    (fun acc c =>
      match lookupAssoc ps c.id with
      | none => (acc.1 + c.weight * 0, acc.2 + 1)
      | some raw => (acc.1 + c.weight * clampScore raw, acc.2))
    (0, 0)

/-- The unrounded per-alternative aggregate of the comparative variant:
major-platform average, current-platform score, blended overall and
slot-fraction coverage, before any rounding is applied. -/
structure RawAggC where
  major_platform_average : ℚ
  current_platform_score : ℚ
  overall_success_score : ℚ
  coverage : ℚ
  missing_values : ℕ
deriving Repr, DecidableEq, Inhabited

/-- The aggregation arithmetic of `score_alternatives._evaluate` for one
alternative, on full-precision values. -/
def rawAggC (alt : AltC) (required majors : List String) (current : String)
    (criteria : List CritC) (blend : Blend) (expected : ℕ) : RawAggC :=
  let res := fun p => platformScoreC alt p criteria
  let majorScores := majors.map (fun p => (res p).1)
  let currentScore := (res current).1
  let missing := (required.map (fun p => (res p).2)).sum
  let majorAverage := majorScores.sum / (majorScores.length : ℚ)
  let overall := blend.major_platform_average * majorAverage
    + blend.current_platform * currentScore
  let coverage0 : ℚ := 1 - (if expected = 0 then 0 else (missing : ℚ) / (expected : ℚ))
  let coverage := max 0 (min 1 coverage0)
  { major_platform_average := majorAverage
    current_platform_score := currentScore
    overall_success_score := overall
    coverage := coverage
    missing_values := missing }

/-- Output record of the comparative variant (scores rounded to 2 decimal
places, coverage to 3, as in the Python result dict). -/
structure ResultC where
  id : String
  name : String
  major_platform_average : ℚ
  current_platform_score : ℚ
  overall_success_score : ℚ
  coverage : ℚ
  missing_values : ℕ
  notes : String
  rank : ℕ
deriving Repr, DecidableEq, Inhabited

/-- Build the output record for one alternative (comparative variant). -/
def scoreAltC (alt : AltC) (required majors : List String) (current : String)
    (criteria : List CritC) (blend : Blend) (expected : ℕ) : ResultC :=
  let raw := rawAggC alt required majors current criteria blend expected
  { id := alt.id
    name := alt.name
    major_platform_average := round2 raw.major_platform_average
    current_platform_score := round2 raw.current_platform_score
    overall_success_score := round2 raw.overall_success_score
    coverage := round3 raw.coverage
    missing_values := raw.missing_values
    notes := alt.notes
    rank := 0 }

/-! ### Sort keys

Python `sorted` with a key tuple is a stable ascending sort in the
lexicographic order of the key; it is embedded as `List.insertionSort`
(also stable, so it computes the same list) with the non-strict relation
derived from a lexicographic `Ordering` comparator. -/

/-- Ascending comparison on a projected component. -/
def cmpOn {α β : Type} [LinearOrder β] (f : α → β) : α → α → Ordering :=
  fun a b => cmp (f a) (f b)

/-- Descending comparison on a projected component (the Python key negates
the value). -/
def cmpOnDesc {α β : Type} [LinearOrder β] (f : α → β) : α → α → Ordering :=
  fun a b => cmp (f b) (f a)

instance {α β : Type} [LinearOrder β] (f : α → β) : Batteries.TransCmp (cmpOn f) where
  symm a b := cmp_swap (f a) (f b)
  le_trans {x y z} h1 h2 := by
    simp only [cmpOn, ne_eq, cmp_eq_gt_iff, not_lt] at h1 h2 ⊢
    exact le_trans h1 h2

instance {α β : Type} [LinearOrder β] (f : α → β) : Batteries.TransCmp (cmpOnDesc f) where
  symm a b := cmp_swap (f b) (f a)
  le_trans {x y z} h1 h2 := by
    simp only [cmpOnDesc, ne_eq, cmp_eq_gt_iff, not_lt] at h1 h2 ⊢
    exact le_trans h2 h1

/-- The sort key of `score_alternatives._evaluate`: descending overall,
descending current-platform score, descending major average, then
case-insensitive name ascending. -/
def cmpKeyC : ResultC → ResultC → Ordering :=
  compareLex (cmpOnDesc (·.overall_success_score))
    (compareLex (cmpOnDesc (·.current_platform_score))
      (compareLex (cmpOnDesc (·.major_platform_average))
        (cmpOn (fun r => (pyLower r.name).data))))

instance : Batteries.TransCmp cmpKeyC := by
  unfold cmpKeyC; infer_instance

/-- Non-strict form of the comparative sort key. -/
def leRelC (a b : ResultC) : Prop := cmpKeyC a b ≠ Ordering.gt

instance : DecidableRel leRelC :=
  fun a b => inferInstanceAs (Decidable (cmpKeyC a b ≠ Ordering.gt))

instance : IsTotal ResultC leRelC where
  total a b := by
    by_cases h : cmpKeyC a b = Ordering.gt
    · exact Or.inr (by
        simp only [leRelC, Batteries.OrientedCmp.cmp_eq_gt.mp h]
        simp)
    · exact Or.inl h

instance : IsTrans ResultC leRelC where
  trans _ _ _ := Batteries.TransCmp.le_trans

/-- Assign 1-based ranks in list order, as `enumerate(ranked, start=1)`. -/
def withRanks {α : Type} (setRank : α → ℕ → α) (l : List α) : List α :=
  l.zipWith setRank (List.range' 1 l.length)

/-- Rank-field update for comparative records. -/
def setRankC (r : ResultC) (k : ℕ) : ResultC := { r with rank := k }

/-- Recommendation block of the comparative variant. -/
structure RecC where
  action : String
  chosen_option_ids : List String
  top_option_id : String
  score_margin_vs_second : ℚ
  reason : String
  rules : RulesC
deriving Repr, DecidableEq, Inhabited

/-- Embedding of `score_alternatives._recommend`: margin is best minus
second when a second record exists and the best overall score otherwise;
the state machine picks select, compose, extend, improve or build-new. -/
def recommendC (ranked : List ResultC) (rules : RulesC) : RecC :=
  let best := ranked.headD default
  let second? := (ranked.drop 1).head?
  let margin := match second? with
    | some s => best.overall_success_score - s.overall_success_score
    | none => best.overall_success_score
  let m2 := fmt2 margin
  let smin := toString rules.select_min
  let cmar := toString rules.compose_margin
  let acr : String × List String × String :=
    if best.overall_success_score ≥ rules.select_min ∧ margin ≥ rules.select_margin then
      ("select", [best.id],
        s!"Top option exceeds select threshold ({smin}) with margin {m2}.")
    else if second?.isSome ∧ best.overall_success_score ≥ rules.compose_min
        ∧ margin < rules.compose_margin then
      ("compose", [best.id, (second?.getD default).id],
        s!"Top two options are strong and close (margin {m2} < {cmar}).")
    else if best.overall_success_score ≥ rules.improve_min then
      if best.major_platform_average - best.current_platform_score ≥ rules.extend_gap then
        ("extend", [best.id],
          "Top option performs better across major platforms than on current platform; adaptation is the fastest path.")
      else
        ("improve", [best.id],
          "Top option is viable but below direct-select threshold; improve focused gaps.")
    else
      ("build-new", [], "No option meets minimum viability threshold.")
  { action := acr.1
    chosen_option_ids := acr.2.1
    top_option_id := best.id
    score_margin_vs_second := round2 margin
    reason := acr.2.2
    rules := rules }

/-- Input document of the comparative variant. -/
structure DocC where
  decision : Option String
  current_platform : String
  major_platforms : Option (List String)
  criteria : Option (List RawCriterion)
  weights : Option BlendOverride
  recommendation_rules : Option RulesOverrideC
  alternatives : Option (List RawAlt)
deriving Repr, DecidableEq, Inhabited

/-- Terminal artifact of the comparative variant. -/
structure EvalResultC where
  decision : String
  current_platform : String
  major_platforms : List String
  criteria : List CritC
  weights : Blend
  ranked_alternatives : List ResultC
  recommendation : RecC
deriving Repr, DecidableEq, Inhabited

/-- Non-strict code-point order on platform names, used to embed Python
`sorted` over the deduplicated platform set. -/
def platLe (a b : String) : Prop := cmp a.data b.data ≠ Ordering.gt

instance : DecidableRel platLe :=
  fun a b => inferInstanceAs (Decidable (cmp a.data b.data ≠ Ordering.gt))

/-- Default major platforms of the comparative and guardrailed variants. -/
def defaultMajorPlatforms : List String := ["chatgpt", "claude", "gemini", "copilot"]

/-- Default decision title on an absent or blank field, as
`str(data.get(k, default)).strip() or default`. -/
def defaulted (v : Option String) (dflt : String) : String :=
  let s := pyStrip (v.getD dflt)
  if s = "" then dflt else s

/-- Embedding of `score_alternatives._evaluate`: validate and normalize the
configuration, score every alternative on every required platform, sort by
the deterministic key, assign ranks 1..N and classify. -/
def evaluateComp (d : DocC) : Except String EvalResultC :=
  let decision := defaulted d.decision "Comparative analysis"
  let current := pyStrip d.current_platform
  if current = "" then .error "current_platform is required"
  else
    let majorsRaw := match d.major_platforms with
      | none => defaultMajorPlatforms
      | some [] => defaultMajorPlatforms
      | some l => l
    let majors := (majorsRaw.map pyStrip).filter (fun s => s ≠ "")
    if majors.isEmpty then
      .error "major_platforms must include at least one non-empty platform name"
    else match normalizeWeightsC (d.criteria.getD []) with
      | .error e => .error e
      | .ok criteria =>
        match normalizeBlend d.weights with
        | .error e => .error e
        | .ok blend =>
          let rules := normalizeRulesC d.recommendation_rules
          match d.alternatives with
          | none => .error "alternatives must be a non-empty array"
          | some [] => .error "alternatives must be a non-empty array"
          | some altsRaw =>
            match validateAltsC altsRaw [] 0 with
            | .error e => .error e
            | .ok alts =>
              let required := List.insertionSort platLe ((majors ++ [current]).eraseDups)
              let expected := criteria.length * required.length
              let results := alts.map
                (fun a => scoreAltC a required majors current criteria blend expected)
              let ranked := withRanks setRankC (List.insertionSort leRelC results)
              .ok { decision := decision
                    current_platform := current
                    major_platforms := majors
                    criteria := criteria
                    weights := blend
                    ranked_alternatives := ranked
                    recommendation := recommendC ranked rules }

/-! ### Guardrailed variant (`score_with_guardrails.py`) -/

/-- Normalized criterion of the guardrailed variant, which additionally
requires metric, data source and scoring rule. -/
structure Criterion where
  id : String
  name : String
  weight : ℚ
  metric : String
  data_source : String
  scoring_rule : String
deriving Repr, DecidableEq, Inhabited

/-- Per-entry validation loop of the guardrailed `_normalize_criteria`:
besides the id, duplicate and weight checks it rejects a blank name,
metric, data source or scoring rule. -/
def validateCritsG : List RawCriterion → List String → ℕ → Except String (List Criterion)
  | [], _, _ => .ok []
  | c :: rest, seen, index =>
    let cid := pyStrip c.id
    if cid = "" then .error s!"criteria[{index}].id is required"
    else if seen.contains cid then .error s!"Duplicate criterion id {cid}"
    else
      let name := pyStrip (c.name.getD "")
      let metric := pyStrip (c.metric.getD "")
      let dataSource := pyStrip (c.data_source.getD "")
      let scoringRule := pyStrip (c.scoring_rule.getD "")
      if name = "" then .error s!"criteria[{index}].name is required"
      else if metric = "" then .error s!"criteria[{index}].metric is required"
      else if dataSource = "" then .error s!"criteria[{index}].data_source is required"
      else if scoringRule = "" then .error s!"criteria[{index}].scoring_rule is required"
      else
        let weight := c.weight.getD 0
        if weight < 0 then .error s!"criteria[{index}].weight must be non-negative"
        else (validateCritsG rest (cid :: seen) (index + 1)).map
          (fun tail =>
            { id := cid, name := name, weight := weight, metric := metric
              data_source := dataSource, scoring_rule := scoringRule } :: tail)

/-- Embedding of the guardrailed `_normalize_criteria`. -/
def normalizeCriteriaG (criteria : List RawCriterion) : Except String (List Criterion) :=
  if criteria.isEmpty then .error "At least one criterion is required"
  else match validateCritsG criteria [] 0 with
    | .error e => .error e
    | .ok l =>
      let total := (l.map (·.weight)).sum
      if total ≤ 0 then .error "Sum of criterion weights must be greater than zero"
      else .ok (l.map (fun c => { c with weight := c.weight / total }))

/-- Recommendation rules of the guardrailed variant, with the coverage
gate threshold. -/
structure RulesG where
  select_min : ℚ
  select_margin : ℚ
  compose_min : ℚ
  compose_margin : ℚ
  improve_min : ℚ
  extend_gap : ℚ
  min_coverage : ℚ
deriving Repr, DecidableEq, Inhabited

/-- Optional user override of the guardrailed rules. -/
structure RulesOverrideG where
  select_min : Option ℚ
  select_margin : Option ℚ
  compose_min : Option ℚ
  compose_margin : Option ℚ
  improve_min : Option ℚ
  extend_gap : Option ℚ
  min_coverage : Option ℚ
deriving Repr, DecidableEq, Inhabited

/-- Embedding of the guardrailed `_normalize_rules`: merge over defaults and
require `min_coverage` to lie in `[0, 1]`. -/
def normalizeRulesG (rules : Option RulesOverrideG) : Except String RulesG :=
  let r : RulesG :=
    { select_min := (rules.bind (·.select_min)).getD 80
      select_margin := (rules.bind (·.select_margin)).getD 7
      compose_min := (rules.bind (·.compose_min)).getD 70
      compose_margin := (rules.bind (·.compose_margin)).getD 7
      improve_min := (rules.bind (·.improve_min)).getD 55
      extend_gap := (rules.bind (·.extend_gap)).getD 10
      min_coverage := (rules.bind (·.min_coverage)).getD (8/10) }
  if r.min_coverage < 0 ∨ r.min_coverage > 1 then
    .error "recommendation_rules.min_coverage must be between 0 and 1"
  else .ok r

/-- Normalized alternative of the guardrailed variant. -/
structure AltG where
  id : String
  name : String
  type : String
  effort : String
  risk : String
  feasible : Bool
  scores : List (String × Option (List (String × ℚ)))
  evidence : List RawEvidence
  justification : String
  notes : String
deriving Repr, DecidableEq, Inhabited

/-- Evidence validation applied when an alternative has type external:
every entry needs a non-blank source url and date and a recognized
strength. -/
def validateEvidence (index : ℕ) : List RawEvidence → ℕ → Except String Unit
  | [], _ => .ok ()
  | item :: rest, evIndex =>
    let url := pyStrip item.source_url
    let date := pyStrip item.source_date
    let strength := pyLower (pyStrip item.evidence_strength)
    if url = "" then
      .error s!"alternatives[{index}].evidence[{evIndex}].source_url is required"
    else if date = "" then
      .error s!"alternatives[{index}].evidence[{evIndex}].source_date is required"
    else if strength ≠ "low" ∧ strength ≠ "medium" ∧ strength ≠ "high" then
      .error s!"alternatives[{index}].evidence[{evIndex}].evidence_strength must be low|medium|high"
    else validateEvidence index rest (evIndex + 1)

/-- Per-entry validation loop of the guardrailed `_normalize_alternatives`:
id and duplicate checks, the type, effort and risk enumerations, a required
justification, and evidence entries when the type is external. -/
def validateAltsG : List RawAlt → List String → ℕ → Except String (List AltG)
  | [], _, _ => .ok []
  | alt :: rest, seen, index =>
    let aid := pyStrip alt.id
    if aid = "" then .error s!"alternatives[{index}].id is required"
    else if seen.contains aid then .error s!"Duplicate alternative id {aid}"
    else
      let nm := pyStrip (alt.name.getD aid)
      let name := if nm = "" then aid else nm
      let altType := pyStrip alt.type
      if altType ≠ "internal" ∧ altType ≠ "compose" ∧ altType ≠ "external"
          ∧ altType ≠ "build-new" then
        .error s!"alternatives[{index}].type must be one of internal|compose|external|build-new"
      else
        let effort := pyStrip alt.effort
        if effort ≠ "S" ∧ effort ≠ "M" ∧ effort ≠ "L" then
          .error s!"alternatives[{index}].effort must be S, M, or L"
        else
          let risk := pyStrip alt.risk
          if risk ≠ "Low" ∧ risk ≠ "Med" ∧ risk ≠ "High" then
            .error s!"alternatives[{index}].risk must be Low, Med, or High"
          else
            let justification := pyStrip alt.justification
            if justification = "" then
              .error s!"alternatives[{index}].justification is required"
            else
              let evidence := alt.evidence.getD []
              let evCheck : Except String Unit :=
                if altType = "external" then
                  if evidence.isEmpty then
                    .error s!"alternatives[{index}] with type external must include evidence entries"
                  else validateEvidence index evidence 0
                else .ok ()
              evCheck.bind (fun _ =>
                (validateAltsG rest (aid :: seen) (index + 1)).map
                  (fun tail =>
                    { id := aid, name := name, type := altType, effort := effort
                      risk := risk, feasible := alt.feasible.getD true
                      scores := alt.scores, evidence := evidence
                      justification := justification, notes := alt.notes } :: tail))

/-- Embedding of the guardrailed `_normalize_alternatives`, including the
two-alternative minimum unless the simulation override is set. -/
def normalizeAltsG (alternatives : Option (List RawAlt)) (allowSingleOption : Bool) :
    Except String (List AltG) :=
  match alternatives with
  | none => .error "alternatives must be a non-empty array"
  | some [] => .error "alternatives must be a non-empty array"
  | some l =>
    if l.length < 2 ∧ ¬allowSingleOption then
      .error "At least two alternatives are required for scoring; run discovery first or use --allow-single-option for simulation only."
    else validateAltsG l [] 0

/-- Embedding of `_effort_rank`: S, M, L map to 0, 1, 2 and anything else
to 9. -/
def effortRank (value : String) : ℕ :=
  match pyLower (pyStrip value) with
  | "s" => 0
  | "m" => 1
  | "l" => 2
  | _ => 9

/-- Embedding of `_risk_rank`: Low, Med or Medium, High map to 0, 1, 2 and
anything else to 9. -/
def riskRank (value : String) : ℕ :=
  match pyLower (pyStrip value) with
  | "low" => 0
  | "med" => 1
  | "medium" => 1
  | "high" => 2
  | _ => 9

/-- Embedding of `_normalize_score_scale`: an absent or blank value means
the 0-100 scale; only 0-100 and 1-5 are accepted. -/
def normalizeScoreScale (value : Option String) : Except String String :=
  let base := match value with
    | none => "0-100"
    | some s => if s = "" then "0-100" else s
  let raw := pyLower (pyStrip base)
  if raw ≠ "0-100" ∧ raw ≠ "1-5" then .error "score_scale must be 0-100 or 1-5"
  else .ok raw

/-- Embedding of `_to_percent_score`: rescale a 1-to-5 value by 20 and clamp
into `[0, 100]`. -/
def toPercentScore (v : ℚ) (scale : String) : ℚ :=
  let s := if scale = "1-5" then v * 20 else v
  min 100 (max 0 s)

/-- Result triple of the guardrailed platform scorer: weighted score,
missing count and covered weight fraction. -/
structure PScoreG where
  score : ℚ
  missing : ℕ
  coverage : ℚ
deriving Repr, DecidableEq, Inhabited

/-- Embedding of the guardrailed `_platform_score` (exclude-and-renormalize
policy): missing criteria are skipped, the weighted sum is divided by the
covered weight when positive and is 0 otherwise, and the covered weight is
reported as coverage. -/
def platformScoreG (alt : AltG) (platform : String) (criteria : List Criterion)
    (scale : String) : PScoreG :=
  let ps := platformScores alt.scores platform
  let acc := criteria.foldl
    (fun (acc : ℚ × ℚ × ℕ) c =>
      match lookupAssoc ps c.id with
      | none => (acc.1, acc.2.1, acc.2.2 + 1)
      | some raw => (acc.1 + c.weight * toPercentScore raw scale, acc.2.1 + c.weight, acc.2.2))
    (0, 0, 0)
  { score := if acc.2.1 > 0 then acc.1 / acc.2.1 else 0
    missing := acc.2.2
    coverage := acc.2.1 }

/-- Discovery gate object of the guardrailed variant. -/
structure Discovery where
  external_discovery_done : Bool
  external_discovery_blocked : Bool
  block_reason : String
deriving Repr, DecidableEq, Inhabited

/-- Input document of the guardrailed variant. -/
structure DocG where
  decision : Option String
  run_id : Option String
  criteria_confirmed : Option Bool
  current_platform : String
  major_platforms : Option (List String)
  score_scale : Option String
  criteria : Option (List RawCriterion)
  alternatives : Option (List RawAlt)
  discovery : Option Discovery
  weights : Option BlendOverride
  recommendation_rules : Option RulesOverrideG
deriving Repr, DecidableEq, Inhabited

/-- Everything the guardrailed `_evaluate` has established once every
validation has passed, before any scoring happens. -/
structure ValidatedG where
  decision : String
  run_id : String
  criteria_confirmed : Option Bool
  current : String
  majors : List String
  scale : String
  criteria : List Criterion
  alts : List AltG
  blend : Blend
  rules : RulesG
deriving Repr, DecidableEq, Inhabited

/-- The validation phase of the guardrailed `_evaluate`, in source order:
confirmation gate, current platform, major platforms, score scale,
criteria, alternatives, discovery gate (at least one of done or blocked,
a reason when blocked, an external alternative when done), blend and
rules. -/
def validateGuard (d : DocG) (allowUnconfirmed allowSingleOption : Bool) :
    Except String ValidatedG :=
  let decision := defaulted d.decision "Hybrid decision analysis"
  let runId := pyStrip (d.run_id.getD "")
  if ¬allowUnconfirmed ∧ d.criteria_confirmed ≠ some true then
    .error "criteria_confirmed must be true before scoring"
  else
    let current := pyStrip d.current_platform
    if current = "" then .error "current_platform is required"
    else
      let majorsRaw := match d.major_platforms with
        | none => defaultMajorPlatforms
        | some [] => defaultMajorPlatforms
        | some l => l
      let majors := (majorsRaw.map pyStrip).filter (fun s => s ≠ "")
      if majors.isEmpty then
        .error "major_platforms must include at least one non-empty platform name"
      else match normalizeScoreScale d.score_scale with
        | .error e => .error e
        | .ok scale =>
          match normalizeCriteriaG (d.criteria.getD []) with
          | .error e => .error e
          | .ok criteria =>
            match normalizeAltsG d.alternatives allowSingleOption with
            | .error e => .error e
            | .ok alts =>
              match d.discovery with
              | none => .error "discovery object is required"
              | some disc =>
                if ¬disc.external_discovery_done ∧ ¬disc.external_discovery_blocked then
                  .error "discovery must either complete external discovery or explicitly block it with reason"
                else if disc.external_discovery_blocked ∧ pyStrip disc.block_reason = "" then
                  .error "discovery.block_reason is required when external discovery is blocked"
                else if disc.external_discovery_done ∧ ¬(alts.any (fun a => a.type = "external")) then
                  .error "external discovery was marked complete but no alternative with type external was provided"
                else match normalizeBlend d.weights with
                  | .error e => .error e
                  | .ok blend =>
                    match normalizeRulesG d.recommendation_rules with
                    | .error e => .error e
                    | .ok rules =>
                      .ok { decision := decision, run_id := runId
                            criteria_confirmed := d.criteria_confirmed
                            current := current, majors := majors, scale := scale
                            criteria := criteria, alts := alts, blend := blend, rules := rules }

/-- Output record of the guardrailed variant. -/
structure ResultG where
  id : String
  name : String
  type : String
  effort : String
  risk : String
  effort_rank : ℕ
  risk_rank : ℕ
  feasible : Bool
  justification : String
  platform_scores : List (String × ℚ)
  major_platform_average : ℚ
  current_platform_score : ℚ
  overall_success_score : ℚ
  coverage : ℚ
  count_coverage : ℚ
  missing_values : ℕ
  notes : String
  rank : ℕ
deriving Repr, DecidableEq, Inhabited

/-- Build the output record for one alternative (guardrailed variant):
unweighted mean over major platforms, blended overall, mean covered weight
as coverage and slot fraction as count coverage, all clamped to `[0, 1]`
and rounded on output. -/
def scoreAltG (alt : AltG) (required majors : List String) (current : String)
    (criteria : List Criterion) (scale : String) (blend : Blend) (expected : ℕ) : ResultG :=
  let res := fun p => platformScoreG alt p criteria scale
  let majorScores := majors.map (fun p => (res p).score)
  let currentScore := (res current).score
  let majorAverage := majorScores.sum / (majorScores.length : ℚ)
  let overall := blend.major_platform_average * majorAverage
    + blend.current_platform * currentScore
  let missing := (required.map (fun p => (res p).missing)).sum
  let coverage0 := (required.map (fun p => (res p).coverage)).sum / (required.length : ℚ)
  let coverage := max 0 (min 1 coverage0)
  let countCoverage0 : ℚ := 1 - (if expected = 0 then 0 else (missing : ℚ) / (expected : ℚ))
  let countCoverage := max 0 (min 1 countCoverage0)
  { id := alt.id
    name := alt.name
    type := alt.type
    effort := alt.effort
    risk := alt.risk
    effort_rank := effortRank alt.effort
    risk_rank := riskRank alt.risk
    feasible := alt.feasible
    justification := alt.justification
    platform_scores := required.map (fun p => (p, round2 (res p).score))
    major_platform_average := round2 majorAverage
    current_platform_score := round2 currentScore
    overall_success_score := round2 overall
    coverage := round3 coverage
    count_coverage := round3 countCoverage
    missing_values := missing
    notes := alt.notes
    rank := 0 }

/-- The sort key of the guardrailed `_evaluate`: feasible records first,
then descending overall, current and major scores, ascending effort and
risk ranks, case-insensitive name ascending. -/
def cmpKeyG : ResultG → ResultG → Ordering :=
  compareLex (cmpOn (fun r => !r.feasible))
    (compareLex (cmpOnDesc (·.overall_success_score))
      (compareLex (cmpOnDesc (·.current_platform_score))
        (compareLex (cmpOnDesc (·.major_platform_average))
          (compareLex (cmpOn (·.effort_rank))
            (compareLex (cmpOn (·.risk_rank))
              (cmpOn (fun r => (pyLower r.name).data)))))))

instance : Batteries.TransCmp cmpKeyG := by
  unfold cmpKeyG; infer_instance

/-- Non-strict form of the guardrailed sort key. -/
def leRelG (a b : ResultG) : Prop := cmpKeyG a b ≠ Ordering.gt

instance : DecidableRel leRelG :=
  fun a b => inferInstanceAs (Decidable (cmpKeyG a b ≠ Ordering.gt))

instance : IsTotal ResultG leRelG where
  total a b := by
    by_cases h : cmpKeyG a b = Ordering.gt
    · exact Or.inr (by
        simp only [leRelG, Batteries.OrientedCmp.cmp_eq_gt.mp h]
        simp)
    · exact Or.inl h

instance : IsTrans ResultG leRelG where
  trans _ _ _ := Batteries.TransCmp.le_trans

/-- Rank-field update for guardrailed records. -/
def setRankG (r : ResultG) (k : ℕ) : ResultG := { r with rank := k }

/-- Recommendation block of the guardrailed variant. -/
structure RecG where
  action : String
  chosen_option_ids : List String
  top_option_id : String
  score_margin_vs_second : ℚ
  reason : String
  rules : RulesG
deriving Repr, DecidableEq, Inhabited

/-- Embedding of the guardrailed `_recommend`: infeasible records are
filtered out first; with no feasible record the action is no-go, with one
the action is improve or no-go and the margin output is 0, and with two or
more the select, compose, extend, improve and no-go branches apply with the
coverage gates. -/
def recommendG (ranked : List ResultG) (rules : RulesG) : RecG :=
  match ranked.filter (·.feasible) with
  | [] =>
    { action := "no-go", chosen_option_ids := []
      top_option_id := (ranked.headD default).id
      score_margin_vs_second := 0
      reason := "All discovered alternatives are infeasible; discover additional options or build new."
      rules := rules }
  | [best] =>
    if best.overall_success_score ≥ rules.improve_min then
      { action := "improve", chosen_option_ids := [best.id]
        top_option_id := best.id, score_margin_vs_second := 0
        reason := "Only one feasible alternative remains; do not use margin-based select. Run additional discovery."
        rules := rules }
    else
      { action := "no-go", chosen_option_ids := []
        top_option_id := best.id, score_margin_vs_second := 0
        reason := "Single feasible option is below viability threshold."
        rules := rules }
  | best :: second :: _ =>
    let margin := best.overall_success_score - second.overall_success_score
    let m2 := fmt2 margin
    let bestCoverageOk := best.coverage ≥ rules.min_coverage
    let secondCoverageOk := second.coverage ≥ rules.min_coverage
    if best.overall_success_score ≥ rules.select_min ∧ margin ≥ rules.select_margin
        ∧ bestCoverageOk then
      { action := "select", chosen_option_ids := [best.id]
        top_option_id := best.id, score_margin_vs_second := round2 margin
        reason := s!"Top feasible option exceeds select threshold and margin ({m2}) with sufficient coverage."
        rules := rules }
    else if best.overall_success_score ≥ rules.compose_min ∧ margin < rules.compose_margin
        ∧ bestCoverageOk ∧ secondCoverageOk then
      { action := "compose", chosen_option_ids := [best.id, second.id]
        top_option_id := best.id, score_margin_vs_second := round2 margin
        reason := "Top two feasible options are strong, close, and both satisfy coverage gate."
        rules := rules }
    else if best.overall_success_score ≥ rules.improve_min then
      if ¬bestCoverageOk then
        { action := "improve", chosen_option_ids := [best.id]
          top_option_id := best.id, score_margin_vs_second := round2 margin
          reason := "Top feasible option is viable but coverage is below gate; improve evidence first."
          rules := rules }
      else if best.major_platform_average - best.current_platform_score ≥ rules.extend_gap then
        { action := "extend", chosen_option_ids := [best.id]
          top_option_id := best.id, score_margin_vs_second := round2 margin
          reason := "Top feasible option performs better across major platforms than current platform; extend current-platform support."
          rules := rules }
      else
        { action := "improve", chosen_option_ids := [best.id]
          top_option_id := best.id, score_margin_vs_second := round2 margin
          reason := "Top feasible option is viable but below direct-select threshold."
          rules := rules }
    else
      { action := "no-go", chosen_option_ids := []
        top_option_id := best.id, score_margin_vs_second := round2 margin
        reason := "No feasible option meets minimum viability threshold."
        rules := rules }

/-- Embedding of `_decision_status`. -/
def decisionStatus (action : String) : String :=
  if action = "select" ∨ action = "compose" ∨ action = "extend" then "proceed"
  else if action = "no-go" then "no-go"
  else "defer"

/-- Terminal artifact of the guardrailed variant. -/
structure EvalResultG where
  run_id : String
  scorer_version : String
  rules_version : String
  evaluated_at : String
  decision : String
  decision_status : String
  criteria_confirmed : Bool
  score_scale : String
  current_platform : String
  major_platforms : List String
  criteria : List Criterion
  weights : Blend
  ranked_alternatives : List ResultG
  recommendation : RecG
deriving Repr, DecidableEq, Inhabited

/-- The required platform set of the guardrailed `_evaluate`: the sorted
deduplicated union of the major platforms and the current platform. -/
def requiredPlatformsG (v : ValidatedG) : List String :=
  List.insertionSort platLe ((v.majors ++ [v.current]).eraseDups)

/-- The per-alternative output records of the guardrailed `_evaluate`, in
input order. -/
def resultsG (v : ValidatedG) : List ResultG :=
  v.alts.map
    (fun a => scoreAltG a (requiredPlatformsG v) v.majors v.current v.criteria v.scale v.blend
      (v.criteria.length * (requiredPlatformsG v).length))

/-- The ranked records of the guardrailed `_evaluate`: the stable sort by
the deterministic key, with ranks 1..N assigned in order. -/
def rankedG (v : ValidatedG) : List ResultG :=
  withRanks setRankG (List.insertionSort leRelG (resultsG v))

/-- The pure scoring phase of the guardrailed `_evaluate`, applied to
validated data; `now` stands for the wall-clock reading used for the
default run id and the evaluated-at stamp. -/
def buildResultG (v : ValidatedG) (now : String) : EvalResultG :=
  let ranked := rankedG v
  let recommendation := recommendG ranked v.rules
  { run_id := if v.run_id = "" then "run-" ++ now else v.run_id
    scorer_version := "1.2.0"
    rules_version := "2026-02-20"
    evaluated_at := now
    decision := v.decision
    decision_status := decisionStatus recommendation.action
    criteria_confirmed := v.criteria_confirmed = some true
    score_scale := v.scale
    current_platform := v.current
    major_platforms := v.majors
    criteria := v.criteria
    weights := v.blend
    ranked_alternatives := ranked
    recommendation := recommendation }

/-- Embedding of the guardrailed `_evaluate`: validation followed by the
pure scoring phase. -/
def evaluateGuard (d : DocG) (allowUnconfirmed allowSingleOption : Bool)
    (now : String) : Except String EvalResultG :=
  (validateGuard d allowUnconfirmed allowSingleOption).map (fun v => buildResultG v now)

/-- The guardrailed result with its two wall-clock-derived fields blanked:
the default run id and the evaluated-at stamp. -/
def stripVolatile (r : EvalResultG) : EvalResultG :=
  { r with run_id := "", evaluated_at := "" }

deriving instance DecidableEq for Except

/-! ### Concrete documents used by witnesses and counterexamples -/

/-- A well-formed criterion accepted by every variant. -/
def wfCrit : RawCriterion :=
  { id := "c", name := some "n", weight := some 1, metric := some "m"
    data_source := some "d", scoring_rule := some "r" }

/-- An internal alternative scoring 90 on platform p. -/
def wfAltInternal : RawAlt :=
  { id := "a1", name := none, type := "internal", effort := "S", risk := "Low"
    justification := "j", feasible := none, scores := [("p", some [("c", 90)])]
    evidence := none, notes := "" }

/-- An external alternative scoring 60 on platform p, with one evidence
entry. -/
def wfAltExternal : RawAlt :=
  { id := "a2", name := none, type := "external", effort := "M", risk := "Med"
    justification := "j", feasible := none, scores := [("p", some [("c", 60)])]
    evidence := some [{ source_url := "u", source_date := "2026-01-01", evidence_strength := "high" }]
    notes := "" }

/-- A guardrailed document that passes every validation: discovery done with
an external alternative present. -/
def okDocG : DocG :=
  { decision := none, run_id := none, criteria_confirmed := some true
    current_platform := "p", major_platforms := some ["p"], score_scale := none
    criteria := some [wfCrit]
    alternatives := some [wfAltInternal, wfAltExternal]
    discovery := some { external_discovery_done := true, external_discovery_blocked := false
                        block_reason := "" }
    weights := none, recommendation_rules := none }

/-- The same document with BOTH discovery flags set: done and blocked at
once, with a reason. -/
def bothDocG : DocG :=
  { okDocG with
    discovery := some { external_discovery_done := true, external_discovery_blocked := true
                        block_reason := "r" } }

/-- Comparative criterion list for the rounding counterexample: one
criterion of weight 1. -/
def cexCritC4 : RawCriterion :=
  { id := "c", name := none, weight := some 1, metric := none
    data_source := none, scoring_rule := none }

/-- Alternative a, scoring 80.001 on the single platform p. -/
def cexAltA4 : RawAlt :=
  { id := "a", name := none, type := "", effort := "", risk := "", justification := ""
    feasible := none, scores := [("p", some [("c", 80001/1000)])], evidence := none, notes := "" }

/-- Alternative b, scoring 80.004 on the single platform p. -/
def cexAltB4 : RawAlt :=
  { id := "b", name := none, type := "", effort := "", risk := "", justification := ""
    feasible := none, scores := [("p", some [("c", 80004/1000)])], evidence := none, notes := "" }

/-- Comparative document for the rounding counterexample: both unrounded
overall scores differ but round to the same 2-decimal value. -/
def cexDocC4 : DocC :=
  { decision := none, current_platform := "p", major_platforms := some ["p"]
    criteria := some [cexCritC4], weights := none, recommendation_rules := none
    alternatives := some [cexAltA4, cexAltB4] }

/-- The validated form of alternative a of the rounding counterexample. -/
def cexValAltA4 : AltC :=
  { id := "a", name := "a", scores := [("p", some [("c", 80001/1000)])], notes := "" }

/-- The validated form of alternative b of the rounding counterexample. -/
def cexValAltB4 : AltC :=
  { id := "b", name := "b", scores := [("p", some [("c", 80004/1000)])], notes := "" }

/-- The normalized criteria of the rounding counterexample. -/
def cexCritsC4 : List CritC := [{ id := "c", name := "c", weight := 1 }]

/-- The default blend after normalization. -/
def blend64 : Blend := { major_platform_average := 6/10, current_platform := 4/10 }

/-- The default guardrailed rules after normalization. -/
def defRulesG : RulesG :=
  { select_min := 80, select_margin := 7, compose_min := 70, compose_margin := 7
    improve_min := 55, extend_gap := 10, min_coverage := 8/10 }

/-- A standalone guardrailed output record with chosen overall score,
coverage and feasibility, used to exercise the recommender directly. -/
def mkRecG (idStr : String) (overall cov : ℚ) (feas : Bool) : ResultG :=
  { id := idStr, name := idStr, type := "internal", effort := "S", risk := "Low"
    effort_rank := 0, risk_rank := 0, feasible := feas, justification := "j"
    platform_scores := [], major_platform_average := overall
    current_platform_score := overall, overall_success_score := overall
    coverage := cov, count_coverage := cov, missing_values := 0, notes := "", rank := 0 }

/-- A standalone comparative output record. -/
def mkRecC (idStr : String) (overall : ℚ) : ResultC :=
  { id := idStr, name := idStr, major_platform_average := overall
    current_platform_score := overall, overall_success_score := overall
    coverage := 1, missing_values := 0, notes := "", rank := 0 }

/-- Guardrailed criteria pair with equal normalized weights, for the
missing-score policy contrast. -/
def critsFitRisk : List Criterion :=
  [{ id := "fit", name := "fit", weight := 1/2, metric := "m", data_source := "d", scoring_rule := "r" },
   { id := "risk", name := "risk", weight := 1/2, metric := "m", data_source := "d", scoring_rule := "r" }]

/-- Comparative criteria pair with equal normalized weights. -/
def critsFitRiskC : List CritC :=
  [{ id := "fit", name := "fit", weight := 1/2 },
   { id := "risk", name := "risk", weight := 1/2 }]

/-- Guardrailed alternative with fit scored 100 and risk missing on
platform p. -/
def altFitOnlyG : AltG :=
  { id := "A", name := "A", type := "internal", effort := "S", risk := "Low"
    feasible := true, scores := [("p", some [("fit", 100)])], evidence := []
    justification := "j", notes := "" }

/-- Comparative alternative with fit scored 100 and risk missing on
platform p. -/
def altFitOnlyC : AltC :=
  { id := "A", name := "A", scores := [("p", some [("fit", 100)])], notes := "" }

/-- Guardrailed alternative with an entirely empty score map. -/
def altNoScoresG : AltG :=
  { id := "B", name := "B", type := "internal", effort := "S", risk := "Low"
    feasible := true, scores := [], evidence := [], justification := "j", notes := "" }

/-- The evaluation result of the well-formed guardrailed document at clock
reading t0. -/
def okResG : EvalResultG :=
  match evaluateGuard okDocG false false "t0" with
  | .ok r => r
  | .error _ => default

/-- The normalized criteria produced from the single well-formed
criterion. -/
def okCritsC : List CritC :=
  match normalizeWeightsC [wfCrit] with
  | .ok l => l
  | .error _ => []

/-- The evaluation result of the rounding-counterexample document. -/
def cexResC4 : EvalResultC :=
  match evaluateComp cexDocC4 with
  | .ok r => r
  | .error _ => default

/-! ### Helper lemmas -/

theorem round2_zero : round2 0 = 0 := by
  with_unfolding_all decide

theorem mem_zipWith_exists {α : Type} {setRank : α → ℕ → α} :
    ∀ {l : List α} {ns : List ℕ} {y : α},
      y ∈ List.zipWith setRank l ns → ∃ b ∈ l, ∃ k, y = setRank b k := by
  intro l
  induction l with
  | nil => intro ns y h; simp at h
  | cons a l ih =>
    intro ns y h
    cases ns with
    | nil => simp at h
    | cons n ns =>
      rw [List.zipWith_cons_cons] at h
      rcases List.mem_cons.mp h with h | h
      · exact ⟨a, List.mem_cons_self .., n, h⟩
      · rcases ih h with ⟨b, hb, k, hk⟩
        exact ⟨b, List.mem_cons_of_mem _ hb, k, hk⟩

theorem exists_rank_mem_zipWith {α : Type} {setRank : α → ℕ → α} :
    ∀ (l : List α) (s : ℕ) (b : α), b ∈ l →
      ∃ k, setRank b k ∈ List.zipWith setRank l (List.range' s l.length) := by
  intro l
  induction l with
  | nil => simp
  | cons a l ih =>
    intro s b hb
    rw [List.length_cons, List.range'_succ, List.zipWith_cons_cons]
    rcases List.mem_cons.mp hb with rfl | hb
    · exact ⟨s, List.mem_cons_self ..⟩
    · rcases ih (s + 1) b hb with ⟨k, hk⟩
      exact ⟨k, List.mem_cons_of_mem _ hk⟩

theorem map_rank_zipWith {α : Type} {setRank : α → ℕ → α} {rankOf : α → ℕ}
    (hrk : ∀ a k, rankOf (setRank a k) = k) :
    ∀ (l : List α) (s : ℕ),
      (List.zipWith setRank l (List.range' s l.length)).map rankOf = List.range' s l.length := by
  intro l
  induction l with
  | nil => simp
  | cons a l ih =>
    intro s
    rw [List.length_cons, List.range'_succ, List.zipWith_cons_cons, List.map_cons, hrk,
      ih (s + 1)]

theorem pairwise_zipWith_ranks {α : Type} {R : α → α → Prop} {setRank : α → ℕ → α}
    (hR : ∀ a k b k', R a b → R (setRank a k) (setRank b k')) :
    ∀ (l : List α) (s : ℕ), l.Pairwise R →
      (List.zipWith setRank l (List.range' s l.length)).Pairwise R := by
  intro l
  induction l with
  | nil => simp
  | cons a l ih =>
    intro s hp
    rw [List.length_cons, List.range'_succ, List.zipWith_cons_cons]
    rcases List.pairwise_cons.mp hp with ⟨ha, hl⟩
    refine List.pairwise_cons.mpr ⟨?_, ih (s + 1) hl⟩
    intro y hy
    rcases mem_zipWith_exists hy with ⟨b, hb, k, rfl⟩
    exact hR a s b k (ha b hb)

theorem platformScoreG_fold_all_missing {ps : List (String × ℚ)} {scale : String} :
    ∀ (criteria : List Criterion) (acc : ℚ × ℚ × ℕ),
      (∀ c ∈ criteria, lookupAssoc ps c.id = none) →
      criteria.foldl
        (fun (acc : ℚ × ℚ × ℕ) c =>
          match lookupAssoc ps c.id with
          | none => (acc.1, acc.2.1, acc.2.2 + 1)
          | some raw => (acc.1 + c.weight * toPercentScore raw scale, acc.2.1 + c.weight, acc.2.2))
        acc = (acc.1, acc.2.1, acc.2.2 + criteria.length) := by
  intro criteria
  induction criteria with
  | nil => intro acc _; simp
  | cons c cs ih =>
    intro acc h
    rw [List.foldl_cons]
    simp only [h c (List.mem_cons_self ..)]
    rw [ih _ (fun x hx => h x (List.mem_cons_of_mem _ hx))]
    simp only [List.length_cons, Prod.mk.injEq, true_and]
    omega

/-! ### Claim theorems -/

/-- C2: for an alternative with raw scores fit 100 and risk missing under
equal normalized weights one half each on a single platform, the
guardrailed exclude-and-renormalize scorer returns weighted score 100 with
coverage one half, while the zero-fill scorer returns 50; the two policies
do not coincide on this input. -/
theorem guardrail_missing_policy_contrast :
    platformScoreG altFitOnlyG "p" critsFitRisk "0-100" =
      { score := 100, missing := 1, coverage := 1/2 }
    ∧ platformScoreC altFitOnlyC "p" critsFitRiskC = (50, 1)
    ∧ (platformScoreG altFitOnlyG "p" critsFitRisk "0-100").score ≠
        (platformScoreC altFitOnlyC "p" critsFitRiskC).1 := by
  with_unfolding_all decide

/-- C10: when every criterion score is missing for a platform, the
guardrailed platform scorer returns weighted score 0, a missing count equal
to the number of criteria, and coverage 0, without any error or division by
zero. -/
theorem guard_platform_score_all_missing (alt : AltG) (platform : String)
    (criteria : List Criterion) (scale : String)
    (h : ∀ c ∈ criteria, lookupAssoc (platformScores alt.scores platform) c.id = none) :
    platformScoreG alt platform criteria scale =
      { score := 0, missing := criteria.length, coverage := 0 } := by
  simp only [platformScoreG]
  rw [platformScoreG_fold_all_missing criteria (0, 0, 0) h]
  norm_num

theorem guard_platform_score_all_missing_witness :
    (∀ c ∈ critsFitRisk, lookupAssoc (platformScores altNoScoresG.scores "p") c.id = none)
    ∧ platformScoreG altNoScoresG "p" critsFitRisk "0-100" =
        { score := 0, missing := critsFitRisk.length, coverage := 0 } :=
  ⟨by with_unfolding_all decide,
   guard_platform_score_all_missing altNoScoresG "p" critsFitRisk "0-100"
     (by with_unfolding_all decide)⟩

/-- C3: in the guardrailed recommender, whenever the best feasible record
clears the select threshold and the margin over the second feasible record
clears the select margin but the best coverage is below the gate, the
action is not select. -/
theorem guard_low_coverage_blocks_select (ranked : List ResultG) (rules : RulesG)
    (best second : ResultG) (rest : List ResultG)
    (hfeas : ranked.filter (·.feasible) = best :: second :: rest)
    (_hsel : best.overall_success_score ≥ rules.select_min)
    (_hmar : best.overall_success_score - second.overall_success_score ≥ rules.select_margin)
    (hcov : best.coverage < rules.min_coverage) :
    (recommendG ranked rules).action ≠ "select" := by
  have hncov : ¬ best.coverage ≥ rules.min_coverage := not_le.mpr hcov
  unfold recommendG
  rw [hfeas]
  dsimp only
  split_ifs with h1 h2 h3 <;> dsimp only <;> first
    | exact absurd h1.2.2 hncov
    | decide

theorem guard_low_coverage_blocks_select_witness :
    ([mkRecG "x" 90 (1/2) true, mkRecG "y" 50 1 true].filter (·.feasible)
        = mkRecG "x" 90 (1/2) true :: mkRecG "y" 50 1 true :: [])
    ∧ (mkRecG "x" 90 (1/2) true).overall_success_score ≥ defRulesG.select_min
    ∧ (mkRecG "x" 90 (1/2) true).overall_success_score
        - (mkRecG "y" 50 1 true).overall_success_score ≥ defRulesG.select_margin
    ∧ (mkRecG "x" 90 (1/2) true).coverage < defRulesG.min_coverage
    ∧ (recommendG [mkRecG "x" 90 (1/2) true, mkRecG "y" 50 1 true] defRulesG).action ≠ "select" :=
  ⟨by with_unfolding_all decide, by with_unfolding_all decide, by with_unfolding_all decide,
   by with_unfolding_all decide,
   guard_low_coverage_blocks_select [mkRecG "x" 90 (1/2) true, mkRecG "y" 50 1 true] defRulesG
     (mkRecG "x" 90 (1/2) true) (mkRecG "y" 50 1 true) []
     (by with_unfolding_all decide) (by with_unfolding_all decide)
     (by with_unfolding_all decide) (by with_unfolding_all decide)⟩

/-- C7: in the guardrailed recommender, with exactly one feasible record
the action is improve when its overall score clears the improve threshold
and no-go otherwise, and in particular is never select. -/
theorem guard_single_feasible_improve_or_nogo (ranked : List ResultG) (rules : RulesG)
    (best : ResultG) (hfeas : ranked.filter (·.feasible) = [best]) :
    (recommendG ranked rules).action =
      (if best.overall_success_score ≥ rules.improve_min then "improve" else "no-go")
    ∧ (recommendG ranked rules).action ≠ "select" := by
  unfold recommendG
  rw [hfeas]
  dsimp only
  split_ifs <;> exact ⟨rfl, by dsimp only; decide⟩

theorem guard_single_feasible_improve_or_nogo_witness :
    ([mkRecG "x" 90 1 true, mkRecG "y" 95 1 false].filter (·.feasible) = [mkRecG "x" 90 1 true])
    ∧ (recommendG [mkRecG "x" 90 1 true, mkRecG "y" 95 1 false] defRulesG).action =
        (if (mkRecG "x" 90 1 true).overall_success_score ≥ defRulesG.improve_min
          then "improve" else "no-go")
    ∧ (recommendG [mkRecG "x" 90 1 true, mkRecG "y" 95 1 false] defRulesG).action ≠ "select" :=
  ⟨by with_unfolding_all decide,
   (guard_single_feasible_improve_or_nogo [mkRecG "x" 90 1 true, mkRecG "y" 95 1 false]
     defRulesG (mkRecG "x" 90 1 true) (by with_unfolding_all decide)).1,
   (guard_single_feasible_improve_or_nogo [mkRecG "x" 90 1 true, mkRecG "y" 95 1 false]
     defRulesG (mkRecG "x" 90 1 true) (by with_unfolding_all decide)).2⟩

/-- C5 counterexample: the guardrailed recommender run on a single feasible
record with overall score 70 outputs margin 0, not the rounded best overall
score, refuting the claim that every variant falls back to the best overall
score when no second record exists. -/
theorem margin_no_second_cex :
    (recommendG [mkRecG "x" 70 1 true] defRulesG).score_margin_vs_second = 0
    ∧ (recommendG [mkRecG "x" 70 1 true] defRulesG).score_margin_vs_second ≠
        round2 (mkRecG "x" 70 1 true).overall_success_score := by
  with_unfolding_all decide

/-- C5 amended: the comparative recommender outputs the rounded margin,
defined as best minus second when a second record exists and the best
overall score otherwise; the guardrailed recommender outputs best minus
second over the feasible records when two exist and 0 otherwise. -/
theorem margin_vs_second_definition :
    (∀ (ranked : List ResultC) (rules : RulesC), ranked ≠ [] →
      (recommendC ranked rules).score_margin_vs_second =
        round2 (match ranked with
          | best :: second :: _ => best.overall_success_score - second.overall_success_score
          | _ => (ranked.headD default).overall_success_score))
    ∧ (∀ (ranked : List ResultG) (rules : RulesG),
      (recommendG ranked rules).score_margin_vs_second =
        round2 (match ranked.filter (·.feasible) with
          | best :: second :: _ => best.overall_success_score - second.overall_success_score
          | _ => 0)) := by
  constructor
  · intro ranked rules hne
    match ranked with
    | [] => exact absurd rfl hne
    | [b] => simp [recommendC]
    | b :: s :: t => simp [recommendC]
  · intro ranked rules
    cases hf : ranked.filter (·.feasible) with
    | nil =>
      unfold recommendG
      rw [hf, round2_zero]
    | cons b t =>
      cases t with
      | nil =>
        unfold recommendG
        rw [hf, round2_zero]
        dsimp only
        split_ifs <;> rfl
      | cons s t' =>
        unfold recommendG
        rw [hf]
        dsimp only
        split_ifs <;> rfl

theorem margin_vs_second_definition_witness :
    (([mkRecC "x" 80] : List ResultC) ≠ []
      ∧ (recommendC [mkRecC "x" 80] (normalizeRulesC none)).score_margin_vs_second =
          round2 (match ([mkRecC "x" 80] : List ResultC) with
            | best :: second :: _ => best.overall_success_score - second.overall_success_score
            | _ => (([mkRecC "x" 80] : List ResultC).headD default).overall_success_score))
    ∧ (recommendG [mkRecG "y" 70 1 true] defRulesG).score_margin_vs_second =
        round2 (match ([mkRecG "y" 70 1 true] : List ResultG).filter (·.feasible) with
          | best :: second :: _ => best.overall_success_score - second.overall_success_score
          | _ => 0) :=
  ⟨⟨by simp, margin_vs_second_definition.1 [mkRecC "x" 80] (normalizeRulesC none) (by simp)⟩,
   margin_vs_second_definition.2 [mkRecG "y" 70 1 true] defRulesG⟩

theorem sum_map_weight_div (l : List CritC) (T : ℚ) :
    ((l.map (fun c => { c with weight := c.weight / T } : CritC → CritC)).map (·.weight)).sum
      = (l.map (·.weight)).sum / T := by
  induction l with
  | nil => simp
  | cons c cs ih =>
    simp only [List.map_cons, List.sum_cons]
    rw [ih, add_div]

theorem validateCritsC_ok_shape :
    ∀ (cs : List RawCriterion) (seen : List String) (idx : ℕ) (l : List CritC),
      validateCritsC cs seen idx = .ok l →
      l.map (·.weight) = cs.map (fun c => c.weight.getD 0)
      ∧ l.map (·.id) = cs.map (fun c => pyStrip c.id) := by
  intro cs
  induction cs with
  | nil =>
    intro seen idx l h
    simp only [validateCritsC, Except.ok.injEq] at h
    subst h
    simp
  | cons c cs ih =>
    intro seen idx l h
    simp only [validateCritsC] at h
    split at h
    · simp at h
    · split at h
      · simp at h
      · split at h
        · simp at h
        · cases hval : validateCritsC cs (pyStrip c.id :: seen) (idx + 1) with
          | error e => rw [hval] at h; simp [Except.map] at h
          | ok tail =>
            rw [hval] at h
            simp only [Except.map, Except.ok.injEq] at h
            subst h
            rcases ih (pyStrip c.id :: seen) (idx + 1) tail hval with ⟨hw, hi⟩
            simp [hw, hi]

theorem normalizeWeightsC_ok {cs : List RawCriterion} {l : List CritC}
    (h : normalizeWeightsC cs = .ok l) :
    ∃ l0, validateCritsC cs [] 0 = .ok l0 ∧ 0 < (l0.map (·.weight)).sum ∧
      l = l0.map (fun c => { c with weight := c.weight / (l0.map (·.weight)).sum }) := by
  simp only [normalizeWeightsC] at h
  split at h
  · simp at h
  · split at h
    · simp at h
    · next l0 heq =>
      split at h
      · simp at h
      · next htot =>
        simp only [Except.ok.injEq] at h
        exact ⟨l0, heq, lt_of_not_le htot, h.symm⟩

/-- C8: every criteria list accepted by the comparative weight normalizer
yields weights summing to exactly 1 with input order preserved (the output
ids are the stripped input ids in order), and every accepted blend has its
two normalized components summing to exactly 1. -/
theorem normalizers_sum_to_one :
    (∀ (cs : List RawCriterion) (l : List CritC), normalizeWeightsC cs = .ok l →
      (l.map (·.weight)).sum = 1 ∧ l.map (·.id) = cs.map (fun c => pyStrip c.id))
    ∧ (∀ (w : Option BlendOverride) (b : Blend), normalizeBlend w = .ok b →
      b.major_platform_average + b.current_platform = 1) := by
  constructor
  · intro cs l h
    rcases normalizeWeightsC_ok h with ⟨l0, hval, hpos, rfl⟩
    rcases validateCritsC_ok_shape cs [] 0 l0 hval with ⟨_, hids⟩
    constructor
    · rw [sum_map_weight_div]
      exact div_self (ne_of_gt hpos)
    · rw [List.map_map]
      exact hids
  · intro w b h
    simp only [normalizeBlend] at h
    split at h
    · simp at h
    · split at h
      · simp at h
      · next hneg hpos =>
        simp only [Except.ok.injEq] at h
        subst h
        rw [div_add_div_same, div_self]
        intro hzero
        exact hpos (le_of_eq hzero)

theorem normalizers_sum_to_one_witness :
    (normalizeWeightsC [wfCrit] = .ok okCritsC
      ∧ (okCritsC.map (·.weight)).sum = 1
      ∧ okCritsC.map (·.id) = [wfCrit].map (fun c => pyStrip c.id))
    ∧ (normalizeBlend none = .ok blend64
      ∧ blend64.major_platform_average + blend64.current_platform = 1) :=
  ⟨⟨by with_unfolding_all decide,
    (normalizers_sum_to_one.1 [wfCrit] okCritsC (by with_unfolding_all decide)).1,
    (normalizers_sum_to_one.1 [wfCrit] okCritsC (by with_unfolding_all decide)).2⟩,
   ⟨by with_unfolding_all decide,
    normalizers_sum_to_one.2 none blend64 (by with_unfolding_all decide)⟩⟩

theorem evaluateGuard_ok {d : DocG} {aU aS : Bool} {now : String} {res : EvalResultG}
    (h : evaluateGuard d aU aS now = .ok res) :
    ∃ v, validateGuard d aU aS = .ok v ∧ res = buildResultG v now := by
  unfold evaluateGuard at h
  cases hv : validateGuard d aU aS with
  | error e => rw [hv] at h; simp [Except.map] at h
  | ok v =>
    rw [hv] at h
    simp only [Except.map, Except.ok.injEq] at h
    exact ⟨v, rfl, h.symm⟩

theorem validateGuard_ok_parts {d : DocG} {aU aS : Bool} {v : ValidatedG}
    (h : validateGuard d aU aS = .ok v) :
    normalizeAltsG d.alternatives aS = .ok v.alts ∧
    ∃ disc, d.discovery = some disc ∧
      (disc.external_discovery_done ∨ disc.external_discovery_blocked) ∧
      (disc.external_discovery_blocked → pyStrip disc.block_reason ≠ "") ∧
      (disc.external_discovery_done → v.alts.any (fun a => a.type = "external") = true) := by
  simp only [validateGuard] at h
  split at h
  · simp at h
  · split at h
    · simp at h
    · split at h
      · simp at h
      · split at h
        · simp at h
        · split at h
          · simp at h
          · split at h
            · simp at h
            · next alts halts =>
              split at h
              · simp at h
              · next disc hdisc =>
                split at h
                · simp at h
                · next hgate1 =>
                  split at h
                  · simp at h
                  · next hgate2 =>
                    split at h
                    · simp at h
                    · next hgate3 =>
                      split at h
                      · simp at h
                      · split at h
                        · simp at h
                        · simp only [Except.ok.injEq] at h
                          subst h
                          refine ⟨halts, disc, hdisc, ?_, ?_, ?_⟩
                          · by_cases hd : disc.external_discovery_done
                            · exact Or.inl hd
                            · right
                              by_contra hb
                              exact hgate1 ⟨hd, hb⟩
                          · intro hb hempty
                            exact hgate2 ⟨hb, hempty⟩
                          · intro hd
                            by_contra hany
                            exact hgate3 ⟨hd, hany⟩

/-- C6 amended: a document accepted by the guardrailed engine always has a
discovery object with at least one of done or blocked set (both together
are accepted), a non-blank reason whenever blocked is set, and an
external-typed record in the output whenever done is set. -/
theorem guard_discovery_gate (d : DocG) (aU aS : Bool) (now : String) (res : EvalResultG)
    (h : evaluateGuard d aU aS now = .ok res) :
    ∃ disc, d.discovery = some disc ∧
      (disc.external_discovery_done ∨ disc.external_discovery_blocked) ∧
      (disc.external_discovery_blocked → pyStrip disc.block_reason ≠ "") ∧
      (disc.external_discovery_done → ∃ r ∈ res.ranked_alternatives, r.type = "external") := by
  rcases evaluateGuard_ok h with ⟨v, hv, rfl⟩
  rcases (validateGuard_ok_parts hv).2 with ⟨disc, hdisc, hor, hbr, hext⟩
  refine ⟨disc, hdisc, hor, hbr, fun hd => ?_⟩
  rcases List.any_eq_true.mp (hext hd) with ⟨a, ha, hatype⟩
  have htype : a.type = "external" := of_decide_eq_true hatype
  have hmem : scoreAltG a (requiredPlatformsG v) v.majors v.current v.criteria v.scale v.blend
      (v.criteria.length * (requiredPlatformsG v).length) ∈ resultsG v :=
    List.mem_map_of_mem _ ha
  have hmem2 : scoreAltG a (requiredPlatformsG v) v.majors v.current v.criteria v.scale v.blend
      (v.criteria.length * (requiredPlatformsG v).length)
      ∈ List.insertionSort leRelG (resultsG v) :=
    (List.mem_insertionSort leRelG).mpr hmem
  rcases exists_rank_mem_zipWith (List.insertionSort leRelG (resultsG v)) 1 _ hmem2 with ⟨k, hk⟩
  exact ⟨setRankG (scoreAltG a (requiredPlatformsG v) v.majors v.current v.criteria v.scale
    v.blend (v.criteria.length * (requiredPlatformsG v).length)) k, hk, htype⟩

/-- C6 counterexample: a document claiming discovery both done and blocked
at once, with a reason and an external alternative, is accepted by the
guardrailed engine, although the claim demands that exactly one of the two
flags holds. -/
theorem guard_discovery_gate_cex :
    bothDocG.discovery = some { external_discovery_done := true
                                external_discovery_blocked := true, block_reason := "r" }
    ∧ (evaluateGuard bothDocG false false "t0").toOption.isSome = true := by
  with_unfolding_all decide

theorem guard_discovery_gate_witness :
    evaluateGuard okDocG false false "t0" = .ok okResG
    ∧ ∃ disc, okDocG.discovery = some disc ∧
        (disc.external_discovery_done ∨ disc.external_discovery_blocked) ∧
        (disc.external_discovery_blocked → pyStrip disc.block_reason ≠ "") ∧
        (disc.external_discovery_done → ∃ r ∈ okResG.ranked_alternatives, r.type = "external") :=
  ⟨by with_unfolding_all decide,
   guard_discovery_gate okDocG false false "t0" okResG (by with_unfolding_all decide)⟩

/-- C1 counterexample: the identical document evaluated at two different
clock readings yields different evaluation results, because the
evaluated-at field records the clock; so the output is not a pure function
of the document and flags alone. -/
theorem determinism_cex :
    evaluateGuard okDocG false false "t1" ≠ evaluateGuard okDocG false false "t2" := by
  with_unfolding_all decide

/-- C1 amended: the guardrailed engine is a pure function of its input
document, flags and clock reading, and across different clock readings
every output field except the evaluated-at stamp and the defaulted run id
coincides. -/
theorem determinism_up_to_clock (d : DocG) (aU aS : Bool) (n1 n2 : String) :
    (evaluateGuard d aU aS n1).map stripVolatile
      = (evaluateGuard d aU aS n2).map stripVolatile := by
  unfold evaluateGuard
  cases hv : validateGuard d aU aS with
  | error e => rfl
  | ok v => rfl

theorem validateAltsG_length :
    ∀ (l : List RawAlt) (seen : List String) (idx : ℕ) (out : List AltG),
      validateAltsG l seen idx = .ok out → out.length = l.length := by
  intro l
  induction l with
  | nil =>
    intro seen idx out h
    simp only [validateAltsG, Except.ok.injEq] at h
    subst h
    rfl
  | cons a l ih =>
    intro seen idx out h
    simp only [validateAltsG] at h
    split at h
    · simp at h
    · split at h
      · simp at h
      · split at h
        · simp at h
        · split at h
          · simp at h
          · split at h
            · simp at h
            · split at h
              · simp at h
              · split at h
                · split at h
                  · simp [Except.bind] at h
                  · cases hev : validateEvidence idx (a.evidence.getD []) 0 with
                    | error e => rw [hev] at h; simp [Except.bind] at h
                    | ok u =>
                      rw [hev] at h
                      simp only [Except.bind] at h
                      cases hrest : validateAltsG l (pyStrip a.id :: seen) (idx + 1) with
                      | error e => rw [hrest] at h; simp [Except.map] at h
                      | ok tail =>
                        rw [hrest] at h
                        simp only [Except.map, Except.ok.injEq] at h
                        subst h
                        simp [ih _ _ tail hrest]
                · simp only [Except.bind] at h
                  cases hrest : validateAltsG l (pyStrip a.id :: seen) (idx + 1) with
                  | error e => rw [hrest] at h; simp [Except.map] at h
                  | ok tail =>
                    rw [hrest] at h
                    simp only [Except.map, Except.ok.injEq] at h
                    subst h
                    simp [ih _ _ tail hrest]

theorem normalizeAltsG_ok {alts? : Option (List RawAlt)} {aS : Bool} {out : List AltG}
    (h : normalizeAltsG alts? aS = .ok out) :
    ∃ l, alts? = some l ∧ validateAltsG l [] 0 = .ok out := by
  cases alts? with
  | none => simp [normalizeAltsG] at h
  | some l =>
    cases l with
    | nil => simp [normalizeAltsG] at h
    | cons a rest =>
      simp only [normalizeAltsG] at h
      split at h
      · simp at h
      · exact ⟨a :: rest, rfl, h⟩

theorem rankedG_map_rank (v : ValidatedG) :
    (rankedG v).map (·.rank) = List.range' 1 v.alts.length := by
  unfold rankedG withRanks
  rw [map_rank_zipWith (fun a k => rfl)]
  simp [resultsG]

theorem rankedG_sorted (v : ValidatedG) : (rankedG v).Pairwise leRelG := by
  unfold rankedG withRanks
  exact @pairwise_zipWith_ranks ResultG leRelG setRankG (fun a k b k' hab => hab)
    (List.insertionSort leRelG (resultsG v)) 1
    (List.sorted_insertionSort leRelG (resultsG v))

/-- C9: for every accepted guardrailed document, the rank fields of the
output records are exactly 1..N in output order, where N is the number of
input alternatives, and consecutive output records are ordered by the
deterministic multi-key comparator (feasible first, then descending
overall, current and major scores, ascending effort rank, risk rank and
case-insensitive name). -/
theorem ranks_are_permutation (d : DocG) (aU aS : Bool) (now : String) (res : EvalResultG)
    (h : evaluateGuard d aU aS now = .ok res) :
    res.ranked_alternatives.map (·.rank) = List.range' 1 (d.alternatives.getD []).length
    ∧ res.ranked_alternatives.Pairwise leRelG := by
  rcases evaluateGuard_ok h with ⟨v, hv, rfl⟩
  have halts := (validateGuard_ok_parts hv).1
  rcases normalizeAltsG_ok halts with ⟨l, hsome, hval⟩
  have hlen : v.alts.length = l.length := validateAltsG_length l [] 0 v.alts hval
  constructor
  · show (rankedG v).map (·.rank) = _
    rw [rankedG_map_rank, hsome]
    simp [hlen]
  · exact rankedG_sorted v

theorem ranks_are_permutation_witness :
    evaluateGuard okDocG false false "t0" = .ok okResG
    ∧ okResG.ranked_alternatives.map (·.rank)
        = List.range' 1 (okDocG.alternatives.getD []).length
    ∧ okResG.ranked_alternatives.Pairwise leRelG :=
  ⟨by with_unfolding_all decide,
   (ranks_are_permutation okDocG false false "t0" okResG (by with_unfolding_all decide)).1,
   (ranks_are_permutation okDocG false false "t0" okResG (by with_unfolding_all decide)).2⟩

theorem evaluateComp_ok_ranked {d : DocC} {res : EvalResultC}
    (h : evaluateComp d = .ok res) :
    ∃ l, res.ranked_alternatives = withRanks setRankC (List.insertionSort leRelC l) := by
  simp only [evaluateComp] at h
  split at h
  · simp at h
  · split at h
    · simp at h
    · split at h
      · simp at h
      · split at h
        · simp at h
        · split at h
          · simp at h
          · simp at h
          · split at h
            · simp at h
            · simp only [Except.ok.injEq] at h
              subst h
              exact ⟨_, rfl⟩

/-- C4 counterexample: on a document whose two alternatives have unrounded
overall scores 80.001 and 80.004, the comparative engine ranks alternative
a first by the name tie-break, although the unrounded overall score of a is
strictly below that of b; both stored overall scores are the rounded value
80. Comparison on unrounded values would have ranked b first. -/
theorem rounding_before_ranking_cex :
    (evaluateComp cexDocC4).map (fun r => r.ranked_alternatives.map (fun x => (x.id, x.rank)))
      = .ok [("a", 1), ("b", 2)]
    ∧ (rawAggC cexValAltA4 ["p"] ["p"] "p" cexCritsC4 blend64 1).overall_success_score
        < (rawAggC cexValAltB4 ["p"] ["p"] "p" cexCritsC4 blend64 1).overall_success_score
    ∧ (evaluateComp cexDocC4).map (fun r => r.ranked_alternatives.map (·.overall_success_score))
      = .ok [80, 80] := by
  with_unfolding_all decide

/-- C4 amended: scores are rounded to 2 decimal places and coverage to 3
when the output records are built, and the ranker compares these
already-rounded stored values; the output order is consistent with the
comparator applied to the rounded output records, not with the
full-precision values. -/
theorem ranking_uses_rounded_scores (d : DocC) (res : EvalResultC)
    (h : evaluateComp d = .ok res) :
    res.ranked_alternatives.Pairwise leRelC := by
  rcases evaluateComp_ok_ranked h with ⟨l, hrk⟩
  rw [hrk]
  unfold withRanks
  exact @pairwise_zipWith_ranks ResultC leRelC setRankC (fun a k b k' hab => hab)
    (List.insertionSort leRelC l) 1 (List.sorted_insertionSort leRelC l)

theorem ranking_uses_rounded_scores_witness :
    evaluateComp cexDocC4 = .ok cexResC4
    ∧ cexResC4.ranked_alternatives.Pairwise leRelC :=
  ⟨by with_unfolding_all decide,
   ranking_uses_rounded_scores cexDocC4 cexResC4 (by with_unfolding_all decide)⟩

end Templ
